import Mathlib

/-!
Shallow embedding of the confluence-api client (lib/confluence.js).

JavaScript values are modeled by `JVal`; the superagent transport is an
oracle `Net` mapping each outgoing request to its outcome; every API
method of the client becomes a pure function from the client
configuration, the oracle and its arguments to the list of HTTP requests
it issues and the single callback invocation it performs.
-/

/-- Model of a JavaScript value (the JSON-ish fragment the client touches).
Numbers are modeled by `Int` (no claim involves fractional values or NaN). -/
inductive JVal where
  | undefined
  | null
  | str (s : String)
  | num (n : Int)
  | bool (b : Bool)
  | arr (elems : List JVal)
  | obj (fields : List (String × JVal))

/-- JavaScript truthiness of a value (`!v` in the source negates this). -/
def truthy : JVal → Bool
  | .undefined => false
  | .null => false
  | .str s => !s.isEmpty
  | .num n => n != 0
  | .bool b => b
  | .arr _ => true
  | .obj _ => true

/-- JavaScript `a || b`: `a` when truthy, otherwise `b`. -/
def jsOr (a b : JVal) : JVal := if truthy a then a else b

/-- Stringification of a value appearing as an array element under
`Array.prototype.join` / array-to-string coercion: `null` and `undefined`
render empty. Nested arrays and objects never occur in the modeled flows,
so one level of join suffices. -/
def jsElemString : JVal → String
  | .undefined => ""
  | .null => ""
  | .str s => s
  | .num n => toString n
  | .bool b => if b then "true" else "false"
  | .arr _ => ""
  | .obj _ => "[object Object]"

/-- JavaScript `Array.prototype.join()` with the default comma separator. -/
def jsJoin (xs : List JVal) : String := String.intercalate "," (xs.map jsElemString)

/-- JavaScript string coercion as performed by the `+` operator on the
values the client concatenates into URLs: `undefined` renders as the
string undefined, which is how a missing homepage link leaks into a URL. -/
def jsToString : JVal → String
  | .undefined => "undefined"
  | .null => "null"
  | .str s => s
  | .num n => toString n
  | .bool b => if b then "true" else "false"
  | .arr xs => jsJoin xs
  | .obj _ => "[object Object]"

/-- Look a key up in an object field list (first binding wins, as in a JS
object literal without duplicate keys); absent keys give `undefined`. -/
def jsFieldGet : List (String × JVal) → String → JVal
  | [], _ => .undefined
  | (k, v) :: rest, key => if k = key then v else jsFieldGet rest key

/-- Non-throwing property access `v.k` used where the source guards the
receiver: objects look the key up, other defined values (primitives,
arrays without that index name) give `undefined`. -/
def jsGetD : JVal → String → JVal
  | .obj fs, k => jsFieldGet fs k
  | _, _ => .undefined

/-- Property access `v.k` with JavaScript throwing semantics: reading a
property of `undefined` or `null` raises a TypeError (modeled as `.error`
carrying the message); any other receiver yields the field or `undefined`. -/
def jsGetE (v : JVal) (k : String) : Except String JVal :=
  match v with
  | .undefined => .error ("Cannot read properties of undefined (reading " ++ k ++ ")")
  | .null => .error ("Cannot read properties of null (reading " ++ k ++ ")")
  | .obj fs => .ok (jsFieldGet fs k)
  | _ => .ok .undefined

/-- Index access `v[i]` with JavaScript throwing semantics: `undefined`
and `null` receivers throw, arrays index their elements (out of range
gives `undefined`), objects look up the numeral key, strings index their
characters, other primitives give `undefined`. -/
def jsIndexE (v : JVal) (i : Nat) : Except String JVal :=
  match v with
  | .undefined => .error ("Cannot read properties of undefined (reading " ++ toString i ++ ")")
  | .null => .error ("Cannot read properties of null (reading " ++ toString i ++ ")")
  | .arr xs => .ok (xs.getD i .undefined)
  | .obj fs => .ok (jsFieldGet fs (toString i))
  | .str s =>
      match s.toList.get? i with
      | some c => .ok (.str (String.singleton c))
      | none => .ok .undefined
  | _ => .ok .undefined

/-- JavaScript strict equality of a value against a number literal
(`v === n` where `n` is a number): true only for that exact number. -/
def jsStrictEqNum (v : JVal) (n : Int) : Bool :=
  match v with
  | .num m => m == n
  | _ => false

/-- Opaque transport-level error object handed to the `.end` callback by
superagent; the client never inspects it, only forwards it. -/
abbrev TransportErr := String

/-- A transport response as seen by the client: only its parsed `body`
property is ever read (`undefined` models a bodyless response). -/
structure Response where
  body : JVal

/-- Outcome of one HTTP exchange: the `(err, res)` pair superagent passes
to the `.end` callback. -/
structure Outcome where
  err : Option TransportErr
  res : Option Response

/-- The network oracle: what the remote service answers to each request.
Theorems quantify over all oracles. -/
structure Request where
  method : String
  url : String
  user : JVal
  pass : JVal
  contentType : Option String := none
  reqBody : Option JVal := none
  headers : List (String × String) := []
  attachments : List (String × String) := []

abbrev Net := Request → Outcome

/-- The error argument a client callback can receive: either the
forwarded transport error object or a domain error message string built
by the client itself. -/
inductive ErrVal where
  | transport (e : TransportErr)
  | msg (s : String)

/-- The result argument a client callback can receive: nothing
(`undefined`, when the source calls `callback(err)` with one argument),
the raw response object, or the parsed body. -/
inductive ResVal where
  | undefined
  | raw (r : Response)
  | parsed (b : JVal)

/-- One callback invocation `(error, result)`. Every modeled operation
performs exactly one. -/
abbrev CbCall := Option ErrVal × ResVal

/-- The raw second callback argument for `callback(err, res)` when `res`
may be absent. -/
def rawRes : Option Response → ResVal
  | none => .undefined
  | some r => .raw r

/-- Truthiness of a callback result argument (`!res` in the source):
`undefined` is falsy, a response object is truthy, a parsed body has its
own JavaScript truthiness. -/
def resValTruthy : ResVal → Bool
  | .undefined => false
  | .raw _ => true
  | .parsed b => truthy b

/-- The `res.id` read the `postContent` inner callback performs on a
truthy result: only a parsed body can expose an `id` field; the raw
response object has no `id` property. -/
def resValId : ResVal → JVal
  | .parsed b => jsGetD b "id"
  | _ => .undefined

/-- `!res.body` test of `processCallback`, guarded by `!res`. -/
def resBodyTruthy : Option Response → Bool
  | none => false
  | some r => truthy r.body

/-- lib/confluence.js `processCallback(cb, err, res)`: forward
`(err, res)` raw when an error occurred, no response arrived, or the
response body is falsy; otherwise deliver the parsed body. -/
def processCallback (err : Option TransportErr) (res : Option Response) : CbCall :=
  if err.isSome || res.isNone || !resBodyTruthy res then
    (err.map ErrVal.transport, rawRes res)
  else
    (none, ResVal.parsed (match res with | some r => r.body | none => .undefined))

/-- The caller-supplied configuration object. Fields hold arbitrary
JavaScript values; an absent field is `undefined`. -/
structure ConfigIn where
  username : JVal
  password : JVal
  baseUrl : JVal
  version : JVal

/-- The constructed client state: the stored configuration fields plus
the API path and extension the constructor derives from the version
marker once, at construction. -/
structure Client where
  username : JVal
  password : JVal
  baseUrl : JVal
  version : JVal
  apiPath : String
  extension : String

/-- lib/confluence.js `Confluence(config)` constructor: validates the
config (missing object, then missing username/password, then missing
baseUrl, first failing check wins), then derives the API path and the
resource extension from the version marker
(`config.version && config.version === 4`). -/
def confluenceInit (config : Option ConfigIn) : Except String Client :=
  match config with
  | none => .error "Confluence module expects a config object."
  | some c =>
    if !truthy c.username || !truthy c.password then
      .error "Confluence module expects a config object with both a username and password."
    else if !truthy c.baseUrl then
      .error "Confluence module expects a config object with a baseUrl."
    else
      .ok { username := c.username, password := c.password,
            baseUrl := c.baseUrl, version := c.version,
            apiPath := if truthy c.version && jsStrictEqNum c.version 4
                       then "/rest/prototype/latest" else "/rest/api",
            extension := if truthy c.version && jsStrictEqNum c.version 4
                         then ".json" else "" }

/-- An authenticated GET request, the common shape of the read
operations (`.get(url).auth(username, password)`). -/
def authGet (cfg : Client) (url : String) : Request :=
  { method := "GET", url := url, user := cfg.username, pass := cfg.password }

/-- An authenticated DELETE request (`.del(url).auth(...)`). -/
def authDel (cfg : Client) (url : String) : Request :=
  { method := "DELETE", url := url, user := cfg.username, pass := cfg.password }

/-- The space-lookup request both `getSpace` and `getSpaceHomePage`
build: baseUrl + apiPath + "/space" + extension + "?spaceKey=" + space. -/
def spaceLookupReq (cfg : Client) (space : String) : Request :=
  authGet cfg (jsToString cfg.baseUrl ++ cfg.apiPath ++ "/space" ++ cfg.extension
    ++ "?spaceKey=" ++ space)

/-- `Confluence.prototype.getSpace`. -/
def getSpace (cfg : Client) (net : Net) (space : String) : List Request × CbCall :=
  let req := spaceLookupReq cfg space
  let o := net req
  ([req], processCallback o.err o.res)

/-- The link extraction `config.baseUrl + res.body.results[0]._expandable.homepage`
performed inside the try block of `getSpaceHomePage`, with JavaScript
throwing semantics at every property access: an `.error` models the
caught TypeError (its payload is the exception message `e.message`). -/
def homepageUrlOf (baseUrl : String) (res : Option Response) : Except String String :=
  match res with
  | none => .error "Cannot read properties of undefined (reading body)"
  | some r => do
    let results ← jsGetE r.body "results"
    let first ← jsIndexE results 0
    let expandable ← jsGetE first "_expandable"
    let hp ← jsGetE expandable "homepage"
    pure (baseUrl ++ jsToString hp)

/-- `Confluence.prototype.getSpaceHomePage`: fetch the space, then follow
the homepage link of the first result; a transport error on step one is
forwarded as `callback(err)`; a TypeError while extracting the link is
caught and surfaced as the domain error string together with the first
response; otherwise the second outcome goes through `processCallback`. -/
def getSpaceHomePage (cfg : Client) (net : Net) (space : String) : List Request × CbCall :=
  let req1 := spaceLookupReq cfg space
  let o1 := net req1
  match o1.err with
  | some e => ([req1], (some (.transport e), .undefined))
  | none =>
    match homepageUrlOf (jsToString cfg.baseUrl) o1.res with
    | .error em =>
        ([req1], (some (.msg ("Can\x27t find space home page. " ++ em)), rawRes o1.res))
    | .ok url2 =>
        let req2 := authGet cfg url2
        let o2 := net req2
        ([req1, req2], processCallback o2.err o2.res)

/-- `Confluence.prototype.getContentById`. -/
def getContentById (cfg : Client) (net : Net) (id : String) : List Request × CbCall :=
  let req := authGet cfg (jsToString cfg.baseUrl ++ cfg.apiPath ++ "/content/" ++ id
    ++ cfg.extension ++ "?expand=body.storage,version")
  let o := net req
  ([req], processCallback o.err o.res)

/-- Options object of `getCustomContentById`: `expanders := none` models
an absent (or otherwise falsy) `expanders` field, `some xs` a present
array — note a present empty array is truthy in JavaScript, so it does
not trigger the `options.expanders || [...]` default. -/
structure CustomContentOptions where
  id : String
  expanders : Option (List JVal)

/-- `Confluence.prototype.getCustomContentById`:
the `expanders` field defaulted when falsy, then joined by comma. -/
def getCustomContentById (cfg : Client) (net : Net) (options : CustomContentOptions) :
    List Request × CbCall :=
  let expanders := options.expanders.getD [.str "body.storage", .str "version"]
  let req := authGet cfg (jsToString cfg.baseUrl ++ cfg.apiPath ++ "/content/" ++ options.id
    ++ cfg.extension ++ "?expand=" ++ jsJoin expanders)
  let o := net req
  ([req], processCallback o.err o.res)

/-- `Confluence.prototype.getContentByPageTitle`. -/
def getContentByPageTitle (cfg : Client) (net : Net) (space title : String) :
    List Request × CbCall :=
  let query := "?spaceKey=" ++ space ++ "&title=" ++ title ++ "&expand=body.storage,version"
  let req := authGet cfg (jsToString cfg.baseUrl ++ cfg.apiPath ++ "/content"
    ++ cfg.extension ++ query)
  let o := net req
  ([req], processCallback o.err o.res)

/-- The page document `postContent` builds: the object literal of the
source, with `ancestors[0]` holding only `type` until the mutation
`page.ancestors[0].id = ...` adds the `id` binding. -/
def postPage (space title content : String) (representation : JVal)
    (ancestorId : Option JVal) : JVal :=
  .obj [("type", .str "page"), ("title", .str title),
        ("space", .obj [("key", .str space)]),
        ("ancestors", .arr [.obj (("type", .str "page") ::
          (match ancestorId with | some i => [("id", i)] | none => []))]),
        ("body", .obj [("storage", .obj [("value", .str content),
          ("representation", jsOr representation (.str "storage"))])])]

/-- The create request issued by the `createPage` closure of
`postContent`: POST baseUrl + apiPath + "/content" + extension, JSON
content type, the page document as body. -/
def postContentReq (cfg : Client) (space title content : String)
    (representation ancestorId : JVal) : Request :=
  { method := "POST",
    url := jsToString cfg.baseUrl ++ cfg.apiPath ++ "/content" ++ cfg.extension,
    user := cfg.username, pass := cfg.password,
    contentType := some "json",
    reqBody := some (postPage space title content representation (some ancestorId)) }

/-- `Confluence.prototype.postContent`: a falsy `parentId` routes through
`getSpaceHomePage`, whose result must be truthy with a truthy `id` for
the create request to be issued with that id as the ancestor; a truthy
`parentId` is used directly as the ancestor with no lookup. -/
def postContent (cfg : Client) (net : Net) (space title content : String)
    (parentId representation : JVal) : List Request × CbCall :=
  let createPage : JVal → List Request × CbCall := fun aid =>
    let req := postContentReq cfg space title content representation aid
    let o := net req
    ([req], processCallback o.err o.res)
  if truthy parentId then
    createPage parentId
  else
    match getSpaceHomePage cfg net space with
    | (reqs1, (some e, _)) => (reqs1, (some e, .undefined))
    | (reqs1, (none, r)) =>
      if resValTruthy r && truthy (resValId r) then
        let step2 := createPage (resValId r)
        (reqs1 ++ step2.1, step2.2)
      else
        (reqs1, (some (.msg "Can\x27t find space home page."), .undefined))

/-- The page document `putContent` builds, with the caller-supplied
version number and the `minorEdit || false` and
`representation || "storage"` defaults of the source. -/
def putPage (space id : String) (version : Int) (title content : String)
    (minorEdit representation : JVal) : JVal :=
  .obj [("id", .str id), ("type", .str "page"), ("title", .str title),
        ("space", .obj [("key", .str space)]),
        ("version", .obj [("number", .num version),
          ("minorEdit", jsOr minorEdit (.bool false))]),
        ("body", .obj [("storage", .obj [("value", .str content),
          ("representation", jsOr representation (.str "storage"))])])]

/-- The update request issued by `putContent`. -/
def putContentReq (cfg : Client) (space id : String) (version : Int)
    (title content : String) (minorEdit representation : JVal) : Request :=
  { method := "PUT",
    url := jsToString cfg.baseUrl ++ cfg.apiPath ++ "/content/" ++ id
      ++ cfg.extension ++ "?expand=body.storage,version",
    user := cfg.username, pass := cfg.password,
    contentType := some "json",
    reqBody := some (putPage space id version title content minorEdit representation) }

/-- `Confluence.prototype.putContent`. -/
def putContent (cfg : Client) (net : Net) (space id : String) (version : Int)
    (title content : String) (minorEdit representation : JVal) : List Request × CbCall :=
  let req := putContentReq cfg space id version title content minorEdit representation
  let o := net req
  ([req], processCallback o.err o.res)

/-- The deletion request issued by `deleteContent`. -/
def deleteContentReq (cfg : Client) (id : String) : Request :=
  authDel cfg (jsToString cfg.baseUrl ++ cfg.apiPath ++ "/content/" ++ id ++ cfg.extension)

/-- `Confluence.prototype.deleteContent`: the `.end` handler calls
`callback(err, res)` directly, without `processCallback`. -/
def deleteContent (cfg : Client) (net : Net) (id : String) : List Request × CbCall :=
  let req := deleteContentReq cfg id
  let o := net req
  ([req], (o.err.map ErrVal.transport, rawRes o.res))

/-- `Confluence.prototype.getAttachments`: note the resource extension is
not appended to this URL. -/
def getAttachments (cfg : Client) (net : Net) (space id : String) : List Request × CbCall :=
  let query := "?spaceKey=" ++ space ++ "&expand=version,container"
  let req := authGet cfg (jsToString cfg.baseUrl ++ cfg.apiPath ++ "/content/" ++ id
    ++ "/child/attachment" ++ query)
  let o := net req
  ([req], processCallback o.err o.res)

/-- `Confluence.prototype.createAttachment`: multipart upload with the
anti-CSRF bypass header; no resource extension on the URL. -/
def createAttachment (cfg : Client) (net : Net) (space id filepath : String) :
    List Request × CbCall :=
  let req : Request :=
    { method := "POST",
      url := jsToString cfg.baseUrl ++ cfg.apiPath ++ "/content/" ++ id ++ "/child/attachment",
      user := cfg.username, pass := cfg.password,
      headers := [("X-Atlassian-Token", "nocheck")],
      attachments := [("file", filepath)] }
  let o := net req
  ([req], processCallback o.err o.res)

/-- `Confluence.prototype.updateAttachmentData`; no resource extension. -/
def updateAttachmentData (cfg : Client) (net : Net) (space id attachmentId filepath : String) :
    List Request × CbCall :=
  let req : Request :=
    { method := "POST",
      url := jsToString cfg.baseUrl ++ cfg.apiPath ++ "/content/" ++ id
        ++ "/child/attachment/" ++ attachmentId ++ "/data",
      user := cfg.username, pass := cfg.password,
      headers := [("X-Atlassian-Token", "nocheck")],
      attachments := [("file", filepath)] }
  let o := net req
  ([req], processCallback o.err o.res)

/-- `Confluence.prototype.getLabels`; no resource extension. -/
def getLabels (cfg : Client) (net : Net) (id : String) : List Request × CbCall :=
  let req := authGet cfg (jsToString cfg.baseUrl ++ cfg.apiPath ++ "/content/" ++ id ++ "/label")
  let o := net req
  ([req], processCallback o.err o.res)

/-- `Confluence.prototype.postLabels`: the caller-supplied labels array
is sent verbatim as the JSON body; no resource extension. -/
def postLabels (cfg : Client) (net : Net) (id : String) (labels : JVal) :
    List Request × CbCall :=
  let req : Request :=
    { method := "POST",
      url := jsToString cfg.baseUrl ++ cfg.apiPath ++ "/content/" ++ id ++ "/label",
      user := cfg.username, pass := cfg.password,
      contentType := some "json",
      reqBody := some labels }
  let o := net req
  ([req], processCallback o.err o.res)

/-- The deletion request issued by `deleteLabel`; no resource extension. -/
def deleteLabelReq (cfg : Client) (id label : String) : Request :=
  authDel cfg (jsToString cfg.baseUrl ++ cfg.apiPath ++ "/content/" ++ id
    ++ "/label?name=" ++ label)

/-- `Confluence.prototype.deleteLabel`: like `deleteContent`, the `.end`
handler calls `callback(err, res)` directly. -/
def deleteLabel (cfg : Client) (net : Net) (id label : String) : List Request × CbCall :=
  let req := deleteLabelReq cfg id label
  let o := net req
  ([req], (o.err.map ErrVal.transport, rawRes o.res))

/-- `Confluence.prototype.search`. -/
def search (cfg : Client) (net : Net) (query : String) : List Request × CbCall :=
  let req := authGet cfg (jsToString cfg.baseUrl ++ cfg.apiPath ++ "/search"
    ++ cfg.extension ++ "?" ++ query)
  let o := net req
  ([req], processCallback o.err o.res)

/-- C4: the response normalizer reduces every transport outcome to
exactly one callback invocation (structurally, `processCallback` yields
one `CbCall`): with the raw `(err, res)` pair when the error is non-null,
or no response arrived, or the response carries no body; otherwise with a
null error and the parsed body as the result. -/
theorem processCallback_single_invocation :
    (∀ (e : Option TransportErr) (r : Option Response),
      (e ≠ none ∨ r = none ∨ resBodyTruthy r = false) →
        processCallback e r = (e.map ErrVal.transport, rawRes r)) ∧
    (∀ (e : Option TransportErr) (resp : Response),
      e = none → truthy resp.body = true →
        processCallback e (some resp) = (none, ResVal.parsed resp.body)) := by
  constructor
  · rintro e r (he | hr | hb)
    · rcases e with _ | ev
      · exact absurd rfl he
      · simp [processCallback]
    · subst hr
      simp [processCallback, resBodyTruthy]
    · simp [processCallback, hb]
  · intro e resp he hb
    subst he
    simp [processCallback, resBodyTruthy, hb]

/-- Witness for C4: a transport error is forwarded raw; a bodied
response is delivered parsed. -/
theorem processCallback_single_invocation_witness :
    processCallback (some "boom") none = (some (.transport "boom"), .undefined) ∧
    processCallback none (some ⟨.obj [("a", .num 1)]⟩) =
      (none, .parsed (.obj [("a", .num 1)])) :=
  ⟨processCallback_single_invocation.1 (some "boom") none (Or.inl (by simp)),
   processCallback_single_invocation.2 none ⟨.obj [("a", .num 1)]⟩ rfl rfl⟩

/-- C5: construction fails with the descriptive error exactly for a
missing config object, then missing (falsy) username or password, then
missing (falsy) baseUrl, in that precedence order with the first failing
check producing the single error; with all three fields present (truthy)
construction succeeds. -/
theorem confluence_constructor_validation :
    (confluenceInit none = .error "Confluence module expects a config object.") ∧
    (∀ c : ConfigIn, (truthy c.username = false ∨ truthy c.password = false) →
      confluenceInit (some c) =
        .error "Confluence module expects a config object with both a username and password.") ∧
    (∀ c : ConfigIn, truthy c.username = true → truthy c.password = true →
      truthy c.baseUrl = false →
      confluenceInit (some c) =
        .error "Confluence module expects a config object with a baseUrl.") ∧
    (∀ c : ConfigIn, truthy c.username = true → truthy c.password = true →
      truthy c.baseUrl = true →
      ∃ cl : Client, confluenceInit (some c) = .ok cl) := by
  refine ⟨rfl, ?_, ?_, ?_⟩
  · rintro c (h | h) <;> simp [confluenceInit, h]
  · intro c hu hp hb
    simp [confluenceInit, hu, hp, hb]
  · intro c hu hp hb
    simp only [confluenceInit, hu, hp, hb, Bool.not_true, Bool.or_self, Bool.false_or,
      if_false]
    exact ⟨_, rfl⟩

/-- Witness for C5: each validation branch and the success branch hit at
a concrete configuration. -/
theorem confluence_constructor_validation_witness :
    (confluenceInit (some ⟨.undefined, .str "p", .str "b", .undefined⟩) =
      .error "Confluence module expects a config object with both a username and password.") ∧
    (confluenceInit (some ⟨.str "u", .str "p", .undefined, .undefined⟩) =
      .error "Confluence module expects a config object with a baseUrl.") ∧
    (∃ cl : Client, confluenceInit (some ⟨.str "u", .str "p", .str "b", .undefined⟩) = .ok cl) :=
  ⟨confluence_constructor_validation.2.1 _ (Or.inl rfl),
   confluence_constructor_validation.2.2.1 _ rfl rfl rfl,
   confluence_constructor_validation.2.2.2 _ rfl rfl rfl⟩

/-- C6: the API path prefix and resource extension are derived from the
version marker exactly once, at construction (legacy prototype path with
".json" extension for version === 4, modern REST path with empty
extension otherwise); no operation re-evaluates the derivation — every
operation is invariant under changing the stored version marker, reading
only the derived `apiPath` and `extension` fields. -/
theorem apiPath_derived_once :
    (∀ (c : ConfigIn) (cl : Client), confluenceInit (some c) = .ok cl →
      (cl.apiPath, cl.extension) =
        (if truthy c.version && jsStrictEqNum c.version 4
         then ("/rest/prototype/latest", ".json") else ("/rest/api", ""))) ∧
    (∀ (cl : Client) (v : JVal) (net : Net) (s t i a q f l : String)
        (n : Int) (j k : JVal) (o : CustomContentOptions),
      getSpace { cl with version := v } net s = getSpace cl net s ∧
      getSpaceHomePage { cl with version := v } net s = getSpaceHomePage cl net s ∧
      getContentById { cl with version := v } net i = getContentById cl net i ∧
      getCustomContentById { cl with version := v } net o = getCustomContentById cl net o ∧
      getContentByPageTitle { cl with version := v } net s t =
        getContentByPageTitle cl net s t ∧
      postContent { cl with version := v } net s t q j k = postContent cl net s t q j k ∧
      putContent { cl with version := v } net s i n t q j k =
        putContent cl net s i n t q j k ∧
      deleteContent { cl with version := v } net i = deleteContent cl net i ∧
      getAttachments { cl with version := v } net s i = getAttachments cl net s i ∧
      createAttachment { cl with version := v } net s i f =
        createAttachment cl net s i f ∧
      updateAttachmentData { cl with version := v } net s i a f =
        updateAttachmentData cl net s i a f ∧
      getLabels { cl with version := v } net i = getLabels cl net i ∧
      postLabels { cl with version := v } net i j = postLabels cl net i j ∧
      deleteLabel { cl with version := v } net i l = deleteLabel cl net i l ∧
      search { cl with version := v } net q = search cl net q) := by
  constructor
  · intro c cl h
    simp only [confluenceInit] at h
    by_cases hcred : (!truthy c.username || !truthy c.password) = true
    · rw [if_pos hcred] at h
      exact Except.noConfusion h
    · rw [if_neg hcred] at h
      by_cases hbase : (!truthy c.baseUrl) = true
      · rw [if_pos hbase] at h
        exact Except.noConfusion h
      · rw [if_neg hbase] at h
        injection h with h
        subst h
        by_cases hv : (truthy c.version && jsStrictEqNum c.version 4) = true <;>
          simp [hv]
  · intro cl v net s t i a q f l n j k o
    exact ⟨rfl, rfl, rfl, rfl, rfl, rfl, rfl, rfl, rfl, rfl, rfl, rfl, rfl, rfl, rfl⟩

/-- A legacy (version 4) client, exactly as `confluenceInit` builds it. -/
def cfgLegacy : Client :=
  { username := .str "u", password := .str "p", baseUrl := .str "http://h",
    version := .num 4, apiPath := "/rest/prototype/latest", extension := ".json" }

/-- A modern client (no version marker), exactly as `confluenceInit`
builds it. -/
def cfgModern : Client :=
  { username := .str "u", password := .str "p", baseUrl := .str "http://h",
    version := .undefined, apiPath := "/rest/api", extension := "" }

/-- An oracle on which every request fails without a response. -/
def netNone : Net := fun _ => ⟨some "down", none⟩

/-- Witness for C6: the legacy marker yields the prototype path and
".json" on a concrete construction, and a concrete operation is
unchanged by rewriting the stored version marker. -/
theorem apiPath_derived_once_witness :
    (cfgLegacy.apiPath, cfgLegacy.extension) = ("/rest/prototype/latest", ".json") ∧
    getSpace { cfgLegacy with version := .undefined } netNone "S" =
      getSpace cfgLegacy netNone "S" :=
  ⟨apiPath_derived_once.1 ⟨.str "u", .str "p", .str "http://h", .num 4⟩ cfgLegacy rfl,
   (apiPath_derived_once.2 cfgLegacy .undefined netNone "S" "t" "i" "a" "q" "f" "l" 1
     .undefined .undefined ⟨"i", none⟩).1⟩

/-- C7: the outgoing `putContent` request carries the caller-supplied
version number as `version.number` and the caller-supplied title
verbatim; an omitted (`undefined`) `minorEdit` defaults to `false` and an
omitted `representation` defaults to the string storage. -/
theorem putContent_body_fields :
    ∀ (cfg : Client) (net : Net) (space id : String) (version : Int)
      (title content : String) (minorEdit representation : JVal),
      (putContent cfg net space id version title content minorEdit representation).1 =
        [putContentReq cfg space id version title content minorEdit representation] ∧
      (putContentReq cfg space id version title content minorEdit representation).reqBody =
        some (putPage space id version title content minorEdit representation) ∧
      jsGetD (putPage space id version title content minorEdit representation) "title" =
        .str title ∧
      jsGetD (jsGetD (putPage space id version title content minorEdit representation)
        "version") "number" = .num version ∧
      jsGetD (jsGetD (putPage space id version title content .undefined representation)
        "version") "minorEdit" = .bool false ∧
      jsGetD (jsGetD (jsGetD (putPage space id version title content minorEdit .undefined)
        "body") "storage") "representation" = .str "storage" := by
  intro cfg net space id version title content minorEdit representation
  exact ⟨rfl, rfl, rfl, rfl, rfl, rfl⟩

/-- C8: `getCustomContentById` requests `expand=body.storage,version`
when `expanders` is absent, exactly `expand=metadata` for
a singleton metadata list, and `expand=` (the empty join, not the default) for a
present empty list. -/
theorem getCustomContentById_expanders :
    ∀ (cfg : Client) (net : Net) (id : String),
      (getCustomContentById cfg net ⟨id, none⟩).1 =
        [authGet cfg (jsToString cfg.baseUrl ++ cfg.apiPath ++ "/content/" ++ id
          ++ cfg.extension ++ "?expand=" ++ "body.storage,version")] ∧
      (getCustomContentById cfg net ⟨id, some [.str "metadata"]⟩).1 =
        [authGet cfg (jsToString cfg.baseUrl ++ cfg.apiPath ++ "/content/" ++ id
          ++ cfg.extension ++ "?expand=" ++ "metadata")] ∧
      (getCustomContentById cfg net ⟨id, some []⟩).1 =
        [authGet cfg (jsToString cfg.baseUrl ++ cfg.apiPath ++ "/content/" ++ id
          ++ cfg.extension ++ "?expand=" ++ "")] := by
  intro cfg net id
  exact ⟨rfl, rfl, rfl⟩

/-- C9: `deleteContent` and `deleteLabel` hand the callback the
transport error and the raw transport response unchanged, for every
outcome; the result argument is never a parsed body. -/
theorem delete_raw_response :
    ∀ (cfg : Client) (net : Net) (id label : String),
      deleteContent cfg net id =
        ([deleteContentReq cfg id],
         ((net (deleteContentReq cfg id)).err.map ErrVal.transport,
          rawRes (net (deleteContentReq cfg id)).res)) ∧
      deleteLabel cfg net id label =
        ([deleteLabelReq cfg id label],
         ((net (deleteLabelReq cfg id label)).err.map ErrVal.transport,
          rawRes (net (deleteLabelReq cfg id label)).res)) ∧
      (∀ b : JVal, (deleteContent cfg net id).2.2 ≠ ResVal.parsed b) ∧
      (∀ b : JVal, (deleteLabel cfg net id label).2.2 ≠ ResVal.parsed b) := by
  intro cfg net id label
  refine ⟨rfl, rfl, ?_, ?_⟩
  · intro b h
    have h2 : rawRes (net (deleteContentReq cfg id)).res = ResVal.parsed b := h
    cases hr : (net (deleteContentReq cfg id)).res with
    | none => rw [hr] at h2; exact ResVal.noConfusion h2
    | some r => rw [hr] at h2; exact ResVal.noConfusion h2
  · intro b h
    have h2 : rawRes (net (deleteLabelReq cfg id label)).res = ResVal.parsed b := h
    cases hr : (net (deleteLabelReq cfg id label)).res with
    | none => rw [hr] at h2; exact ResVal.noConfusion h2
    | some r => rw [hr] at h2; exact ResVal.noConfusion h2

/-- Witness for C9: at a concrete failing exchange the deletion callback
result is not a parsed body. -/
theorem delete_raw_response_witness :
    (deleteContent cfgModern netNone "1").2.2 ≠ ResVal.parsed (.num 1) :=
  (delete_raw_response cfgModern netNone "1" "x").2.2.1 (.num 1)

/-- C3 counterexample: with a legacy client (resource extension ".json")
the attachment listing URL does not carry the extension after the
resource path, contradicting the claim that every request-building unit
appends it. -/
theorem extension_attachment_counterexample :
    ((getAttachments cfgLegacy netNone "S" "1").1.map fun r => r.url) =
      ["http://h/rest/prototype/latest/content/1/child/attachment?spaceKey=S&expand=version,container"] ∧
    ((getAttachments cfgLegacy netNone "S" "1").1.map fun r => r.url) ≠
      ["http://h/rest/prototype/latest/content/1/child/attachment.json?spaceKey=S&expand=version,container"] ∧
    ((getLabels cfgLegacy netNone "1").1.map fun r => r.url) =
      ["http://h/rest/prototype/latest/content/1/label"] ∧
    ((getLabels cfgLegacy netNone "1").1.map fun r => r.url) ≠
      ["http://h/rest/prototype/latest/content/1/label.json"] := by
  refine ⟨rfl, by decide, rfl, by decide⟩

/-- Whatever the oracle answers, the home-page resolution issues the
space lookup first. -/
theorem getSpaceHomePage_reqs_head :
    ∀ (cfg : Client) (net : Net) (space : String),
      ∃ rest, (getSpaceHomePage cfg net space).1 = spaceLookupReq cfg space :: rest := by
  intro cfg net space
  simp only [getSpaceHomePage]
  rcases h : (net (spaceLookupReq cfg space)).err with _ | e
  · rcases h2 : homepageUrlOf (jsToString cfg.baseUrl) (net (spaceLookupReq cfg space)).res
      with em | u
    · exact ⟨[], rfl⟩
    · exact ⟨[authGet cfg u], rfl⟩
  · exact ⟨[], rfl⟩

/-- C3 amended: the target URL of every operation is base URL + API path
prefix + resource path (+ resource extension for the space, content,
and search operations) + query string; the attachment and label
operations omit the resource extension. -/
theorem request_url_construction :
    ∀ (cfg : Client) (net : Net) (space title id attachmentId filepath label query : String)
      (options : CustomContentOptions),
      ((getSpace cfg net space).1.map fun r => r.url) =
        [jsToString cfg.baseUrl ++ cfg.apiPath ++ "/space" ++ cfg.extension
          ++ "?spaceKey=" ++ space] ∧
      ((getSpaceHomePage cfg net space).1.map fun r => r.url).head? =
        some (jsToString cfg.baseUrl ++ cfg.apiPath ++ "/space" ++ cfg.extension
          ++ "?spaceKey=" ++ space) ∧
      ((getContentById cfg net id).1.map fun r => r.url) =
        [jsToString cfg.baseUrl ++ cfg.apiPath ++ "/content/" ++ id ++ cfg.extension
          ++ "?expand=body.storage,version"] ∧
      ((getCustomContentById cfg net options).1.map fun r => r.url) =
        [jsToString cfg.baseUrl ++ cfg.apiPath ++ "/content/" ++ options.id ++ cfg.extension
          ++ "?expand=" ++ jsJoin (options.expanders.getD [.str "body.storage", .str "version"])] ∧
      ((getContentByPageTitle cfg net space title).1.map fun r => r.url) =
        [jsToString cfg.baseUrl ++ cfg.apiPath ++ "/content" ++ cfg.extension
          ++ ("?spaceKey=" ++ space ++ "&title=" ++ title ++ "&expand=body.storage,version")] ∧
      (∀ content rep aid, (postContentReq cfg space title content rep aid).url =
        jsToString cfg.baseUrl ++ cfg.apiPath ++ "/content" ++ cfg.extension) ∧
      (∀ version content me rep,
        (putContentReq cfg space id version title content me rep).url =
          jsToString cfg.baseUrl ++ cfg.apiPath ++ "/content/" ++ id ++ cfg.extension
            ++ "?expand=body.storage,version") ∧
      ((deleteContent cfg net id).1.map fun r => r.url) =
        [jsToString cfg.baseUrl ++ cfg.apiPath ++ "/content/" ++ id ++ cfg.extension] ∧
      ((getAttachments cfg net space id).1.map fun r => r.url) =
        [jsToString cfg.baseUrl ++ cfg.apiPath ++ "/content/" ++ id ++ "/child/attachment"
          ++ ("?spaceKey=" ++ space ++ "&expand=version,container")] ∧
      ((createAttachment cfg net space id filepath).1.map fun r => r.url) =
        [jsToString cfg.baseUrl ++ cfg.apiPath ++ "/content/" ++ id ++ "/child/attachment"] ∧
      ((updateAttachmentData cfg net space id attachmentId filepath).1.map fun r => r.url) =
        [jsToString cfg.baseUrl ++ cfg.apiPath ++ "/content/" ++ id
          ++ "/child/attachment/" ++ attachmentId ++ "/data"] ∧
      ((getLabels cfg net id).1.map fun r => r.url) =
        [jsToString cfg.baseUrl ++ cfg.apiPath ++ "/content/" ++ id ++ "/label"] ∧
      (∀ labels, ((postLabels cfg net id labels).1.map fun r => r.url) =
        [jsToString cfg.baseUrl ++ cfg.apiPath ++ "/content/" ++ id ++ "/label"]) ∧
      ((deleteLabel cfg net id label).1.map fun r => r.url) =
        [jsToString cfg.baseUrl ++ cfg.apiPath ++ "/content/" ++ id ++ "/label?name=" ++ label] ∧
      ((search cfg net query).1.map fun r => r.url) =
        [jsToString cfg.baseUrl ++ cfg.apiPath ++ "/search" ++ cfg.extension ++ "?" ++ query] := by
  intro cfg net space title id attachmentId filepath label query options
  refine ⟨rfl, ?_, rfl, rfl, rfl, fun _ _ _ => rfl, fun _ _ _ _ => rfl, rfl, rfl, rfl,
    rfl, rfl, fun _ => rfl, rfl, rfl⟩
  obtain ⟨rest, hr⟩ := getSpaceHomePage_reqs_head cfg net space
  rw [hr]
  rfl

/-- With a falsy `parentId`, `postContent` starts with the space lookup
of the home-page resolution. -/
theorem postContent_falsy_head :
    ∀ (cfg : Client) (net : Net) (space title content : String) (pid rep : JVal),
      truthy pid = false →
      (postContent cfg net space title content pid rep).1.head? =
        some (spaceLookupReq cfg space) := by
  intro cfg net space title content pid rep h
  obtain ⟨rest, hr⟩ := getSpaceHomePage_reqs_head cfg net space
  rcases hg : getSpaceHomePage cfg net space with ⟨reqs1, e?, r⟩
  rw [hg] at hr
  simp only at hr
  subst hr
  cases e? with
  | some e => simp [postContent, h, hg]
  | none =>
    by_cases ht : (resValTruthy r && truthy (resValId r)) = true <;>
      simp [postContent, h, hg, ht]

/-- C10: every falsy `parentId` (null, undefined, the number 0, the
empty string) makes `postContent` perform the home-page lookup first
instead of using the supplied value; every truthy `parentId` is used
directly as the ancestor of a single create request, with no lookup. -/
theorem postContent_falsy_parent :
    ∀ (cfg : Client) (net : Net) (space title content : String) (rep : JVal),
      (∀ pid ∈ ([.null, .undefined, .num 0, .str ""] : List JVal),
        (postContent cfg net space title content pid rep).1.head? =
          some (spaceLookupReq cfg space)) ∧
      (∀ pid : JVal, truthy pid = true →
        postContent cfg net space title content pid rep =
          ([postContentReq cfg space title content rep pid],
           processCallback (net (postContentReq cfg space title content rep pid)).err
             (net (postContentReq cfg space title content rep pid)).res)) := by
  intro cfg net space title content rep
  constructor
  · intro pid hpid
    have h : truthy pid = false := by
      simp only [List.mem_cons, List.not_mem_nil, or_false] at hpid
      rcases hpid with rfl | rfl | rfl | rfl <;> rfl
    exact postContent_falsy_head cfg net space title content pid rep h
  · intro pid h
    simp [postContent, h]

/-- Witness for C10: the falsy number 0 routes through the space lookup;
the truthy number 7 is used directly in a lone create request. -/
theorem postContent_falsy_parent_witness :
    (postContent cfgModern netNone "S" "T" "C" (.num 0) .undefined).1.head? =
      some (spaceLookupReq cfgModern "S") ∧
    postContent cfgModern netNone "S" "T" "C" (.num 7) .undefined =
      ([postContentReq cfgModern "S" "T" "C" .undefined (.num 7)],
       processCallback (netNone (postContentReq cfgModern "S" "T" "C" .undefined (.num 7))).err
         (netNone (postContentReq cfgModern "S" "T" "C" .undefined (.num 7))).res) :=
  ⟨(postContent_falsy_parent cfgModern netNone "S" "T" "C" .undefined).1 (.num 0)
     (List.Mem.tail _ (List.Mem.tail _ (List.Mem.head _))),
   (postContent_falsy_parent cfgModern netNone "S" "T" "C" .undefined).2 (.num 7) rfl⟩

/-- C1 counterexample: `parentId = 0` is non-null, yet `postContent`
performs the space/home-page lookup (its one issued request is the space
GET) instead of issuing the create request directly with ancestor id 0. -/
theorem postContent_nonnull_parent_counterexample :
    ((postContent cfgModern netNone "S" "T" "C" (.num 0) .undefined).1.map fun r => r.url) =
      ["http://h/rest/api/space?spaceKey=S"] ∧
    ((postContent cfgModern netNone "S" "T" "C" (.num 0) .undefined).1.map fun r => r.url) ≠
      ["http://h/rest/api/content"] := by
  refine ⟨rfl, by decide⟩

/-- C1 amended: with `parentId = null` the client performs the home-page
resolution first and issues the create request only when it yields a
truthy result with a truthy id, using that id as `ancestors[0].id`;
when resolution reports an error or a result without a usable id, the
failure is surfaced and the create request is never issued; for every
truthy (rather than merely non-null) `parentId`, no lookup happens and
the create request carries `ancestors[0].id = parentId`. -/
theorem postContent_parent_resolution :
    ∀ (cfg : Client) (net : Net) (space title content : String) (rep : JVal),
      ((postContent cfg net space title content .null rep).1.head? =
        some (spaceLookupReq cfg space)) ∧
      (∀ reqs1 r, getSpaceHomePage cfg net space = (reqs1, (none, r)) →
        resValTruthy r = true → truthy (resValId r) = true →
        postContent cfg net space title content .null rep =
          (reqs1 ++ [postContentReq cfg space title content rep (resValId r)],
           processCallback
             (net (postContentReq cfg space title content rep (resValId r))).err
             (net (postContentReq cfg space title content rep (resValId r))).res)) ∧
      (∀ reqs1 e r, getSpaceHomePage cfg net space = (reqs1, (some e, r)) →
        postContent cfg net space title content .null rep = (reqs1, (some e, .undefined))) ∧
      (∀ reqs1 r, getSpaceHomePage cfg net space = (reqs1, (none, r)) →
        (resValTruthy r && truthy (resValId r)) = false →
        postContent cfg net space title content .null rep =
          (reqs1, (some (.msg "Can\x27t find space home page."), .undefined))) ∧
      (∀ pid : JVal, truthy pid = true →
        postContent cfg net space title content pid rep =
          ([postContentReq cfg space title content rep pid],
           processCallback (net (postContentReq cfg space title content rep pid)).err
             (net (postContentReq cfg space title content rep pid)).res)) := by
  intro cfg net space title content rep
  refine ⟨postContent_falsy_head cfg net space title content .null rep rfl, ?_, ?_, ?_, ?_⟩
  · intro reqs1 r hg ht hid
    have hn : truthy JVal.null = false := rfl
    simp [postContent, hn, hg, ht, hid]
  · intro reqs1 e r hg
    have hn : truthy JVal.null = false := rfl
    simp [postContent, hn, hg]
  · intro reqs1 r hg hfail
    have hn : truthy JVal.null = false := rfl
    simp [postContent, hn, hg, hfail]
  · intro pid h
    simp [postContent, h]

/-- An oracle modeling a healthy service: the space lookup returns a
result whose `_expandable.homepage` link leads to a home page with id
42; the create POST succeeds. -/
def netHome : Net := fun req =>
  if req.url = "http://h/rest/api/space?spaceKey=S" then
    ⟨none, some ⟨.obj [("results",
      .arr [.obj [("_expandable", .obj [("homepage", .str "/hp")])]])]⟩⟩
  else if req.url = "http://h/hp" then
    ⟨none, some ⟨.obj [("id", .str "42")]⟩⟩
  else if req.method = "POST" then
    ⟨none, some ⟨.obj [("id", .str "99")]⟩⟩
  else ⟨some "unexpected", none⟩

/-- Witness for C1: on the healthy oracle, `postContent` with a null
parent resolves the home page (two GETs) and then creates the page under
ancestor id 42; with a truthy parent it issues only the create request. -/
theorem postContent_parent_resolution_witness :
    postContent cfgModern netHome "S" "T" "C" .null .undefined =
      ([spaceLookupReq cfgModern "S", authGet cfgModern "http://h/hp",
        postContentReq cfgModern "S" "T" "C" .undefined (.str "42")],
       processCallback
         (netHome (postContentReq cfgModern "S" "T" "C" .undefined (.str "42"))).err
         (netHome (postContentReq cfgModern "S" "T" "C" .undefined (.str "42"))).res) ∧
    postContent cfgModern netHome "S" "T" "C" (.num 7) .undefined =
      ([postContentReq cfgModern "S" "T" "C" .undefined (.num 7)],
       processCallback (netHome (postContentReq cfgModern "S" "T" "C" .undefined (.num 7))).err
         (netHome (postContentReq cfgModern "S" "T" "C" .undefined (.num 7))).res) :=
  ⟨(postContent_parent_resolution cfgModern netHome "S" "T" "C" .undefined).2.1
     [spaceLookupReq cfgModern "S", authGet cfgModern "http://h/hp"]
     (.parsed (.obj [("id", .str "42")])) rfl rfl rfl,
   (postContent_parent_resolution cfgModern netHome "S" "T" "C" .undefined).2.2.2.2
     (.num 7) rfl⟩

/-- String concatenation is associative (helper for substring facts). -/
theorem strAppendAssoc (a b c : String) : (a ++ b) ++ c = a ++ (b ++ c) := by
  rcases a with ⟨la⟩
  rcases b with ⟨lb⟩
  rcases c with ⟨lc⟩
  show String.mk ((la ++ lb) ++ lc) = String.mk (la ++ (lb ++ lc))
  rw [List.append_assoc]

/-- C2 amended: when the space lookup succeeds on the transport level and
the link extraction `res.body.results[0]._expandable.homepage` throws
(absent or malformed results array, or an absent/null `_expandable`
container), the callback receives a single domain error whose text
contains "home page" together with the partially received first
response, and no second request is issued; when the extraction
succeeds — in particular when a present `_expandable` merely lacks the
`homepage` field, which extracts `undefined` without throwing — a second
request is issued to base URL + extracted link (base URL + the string
undefined in the lacking-homepage case) and its outcome is delivered
instead of a domain error. -/
theorem getSpaceHomePage_domain_error :
    ∀ (cfg : Client) (net : Net) (space : String),
      (net (spaceLookupReq cfg space)).err = none →
      ((∀ em, homepageUrlOf (jsToString cfg.baseUrl) (net (spaceLookupReq cfg space)).res =
          .error em →
        getSpaceHomePage cfg net space =
          ([spaceLookupReq cfg space],
           (some (.msg ("Can\x27t find space home page. " ++ em)),
            rawRes (net (spaceLookupReq cfg space)).res)) ∧
        ∃ pre post, "Can\x27t find space home page. " ++ em = pre ++ "home page" ++ post) ∧
       (∀ u, homepageUrlOf (jsToString cfg.baseUrl) (net (spaceLookupReq cfg space)).res =
          .ok u →
        getSpaceHomePage cfg net space =
          ([spaceLookupReq cfg space, authGet cfg u],
           processCallback (net (authGet cfg u)).err (net (authGet cfg u)).res)) ∧
       (∀ (b : String) (fields : List (String × JVal)) (more : List JVal),
         jsFieldGet fields "homepage" = .undefined →
         homepageUrlOf b (some ⟨.obj [("results",
           .arr (.obj [("_expandable", .obj fields)] :: more))]⟩) =
           .ok (b ++ "undefined"))) := by
  intro cfg net space h1
  refine ⟨?_, ?_, ?_⟩
  · intro em h2
    constructor
    · simp [getSpaceHomePage, h1, h2]
    · refine ⟨"Can\x27t find space ", ". " ++ em, ?_⟩
      rw [strAppendAssoc]
      rfl
  · intro u h2
    simp [getSpaceHomePage, h1, h2]
  · intro b fields more h
    have hcalc : homepageUrlOf b (some ⟨.obj [("results",
        .arr (.obj [("_expandable", .obj fields)] :: more))]⟩) =
        .ok (b ++ jsToString (jsFieldGet fields "homepage")) := rfl
    rw [hcalc, h]
    rfl

/-- An oracle whose space lookup succeeds with a body that has no
`results` field at all, so the link extraction throws on `results[0]`. -/
def netNoResults : Net := fun _ => ⟨none, some ⟨.obj []⟩⟩

/-- Witness for C2: on a response without a results array the callback
gets the domain error built from the caught TypeError, together with the
raw first response. -/
theorem getSpaceHomePage_domain_error_witness :
    getSpaceHomePage cfgModern netNoResults "S" =
      ([spaceLookupReq cfgModern "S"],
       (some (.msg ("Can\x27t find space home page. "
          ++ "Cannot read properties of undefined (reading 0)")),
        .raw ⟨.obj []⟩)) :=
  (((getSpaceHomePage_domain_error cfgModern netNoResults "S" rfl).1
    "Cannot read properties of undefined (reading 0)" rfl).1)

/-- An oracle whose space lookup returns a first result with a present
but empty `_expandable` container, and which answers the resulting
second request (to base URL + "undefined") with an ordinary JSON body. -/
def netNoHomepageField : Net := fun req =>
  if req.url = "http://h/rest/api/space?spaceKey=S" then
    ⟨none, some ⟨.obj [("results", .arr [.obj [("_expandable", .obj [])]])]⟩⟩
  else
    ⟨none, some ⟨.obj [("ok", .num 1)]⟩⟩

/-- C2 counterexample: the first response is well-formed except that its
`_expandable` container lacks the `homepage` link field; the claim says
the callback receives a domain error mentioning "home page", but the
client raises no error at all (the error argument is `none`): it issues
a second request to "http://h" ++ "undefined" and delivers that
second response and delivers its parsed body. -/
theorem getSpaceHomePage_missing_link_counterexample :
    (getSpaceHomePage cfgModern netNoHomepageField "S").2.1 = none ∧
    ((getSpaceHomePage cfgModern netNoHomepageField "S").1.map fun r => r.url) =
      ["http://h/rest/api/space?spaceKey=S", "http://hundefined"] ∧
    (getSpaceHomePage cfgModern netNoHomepageField "S").2.2 =
      .parsed (.obj [("ok", .num 1)]) := by
  exact ⟨rfl, rfl, rfl⟩
